import Mathlib

/-!
Shallow embedding of the virsh-sendkeys utility (sendkeys.py, sendkeys_gui.py)
and proofs about its key map, domain-list parsing and dispatch loop.

Python string primitives (str.split, str.splitlines, str.strip and the
format spec 02x) are modelled first; the program's own functions follow,
translated per-file into the namespaces sendkeys and sendkeys_gui.
-/

/-- Characters the Python str.split() / str.strip() treat as whitespace. -/
def isPySpace (c : Char) : Bool :=
  c == ' ' || c == '\t' || c == '\n' || c == '\r' || c == '\x0b' || c == '\x0c' ||
  c == '\x1c' || c == '\x1d' || c == '\x1e' || c == '\x1f' || c == '\x85' || c == '\xa0' ||
  c == '\u1680' || (0x2000 ≤ c.toNat && c.toNat ≤ 0x200a) || c == '\u2028' || c == '\u2029' ||
  c == '\u202f' || c == '\u205f' || c == '\u3000'

/-- Characters the Python str.splitlines() treats as line boundaries
(the pair CR LF is additionally treated as a single boundary). -/
def isPyLineBreak (c : Char) : Bool :=
  c == '\n' || c == '\r' || c == '\x0b' || c == '\x0c' || c == '\x1c' || c == '\x1d' ||
  c == '\x1e' || c == '\x85' || c == '\u2028' || c == '\u2029'

/-- Accumulator-based core of pySplit: splits on runs of whitespace,
producing no empty tokens, like Python str.split() with no argument. -/
def pySplitAux : List Char → List Char → List String
  | [], acc => if acc.isEmpty then [] else [String.mk acc.reverse]
  | c :: cs, acc =>
    if isPySpace c then
      if acc.isEmpty then pySplitAux cs [] else String.mk acc.reverse :: pySplitAux cs []
    else pySplitAux cs (c :: acc)

/-- Model of Python str.split() with no argument. -/
def pySplit (s : String) : List String := pySplitAux s.toList []

/-- Accumulator-based core of pySplitlines: a line break emits the current
line (possibly empty); a final fragment is emitted only when nonempty,
so a trailing break yields no extra empty line, like Python. -/
def pySplitlinesAux : List Char → List Char → List String
  | [], acc => if acc.isEmpty then [] else [String.mk acc.reverse]
  | '\r' :: '\n' :: cs, acc => String.mk acc.reverse :: pySplitlinesAux cs []
  | c :: cs, acc =>
    if isPyLineBreak c then String.mk acc.reverse :: pySplitlinesAux cs []
    else pySplitlinesAux cs (c :: acc)

/-- Model of Python str.splitlines(). -/
def pySplitlines (s : String) : List String := pySplitlinesAux s.toList []

/-- Model of Python str.strip() with no argument. -/
def pyStrip (s : String) : String :=
  String.mk (((s.toList.dropWhile isPySpace).reverse.dropWhile isPySpace).reverse)

/-- Model of the Python format expression f"0x\x7bn:02x\x7d": lowercase
hexadecimal digits of n, zero-padded on the left to width at least 2,
behind the fixed 0x marker. -/
def pyHex02 (n : Nat) : String :=
  let ds := Nat.toDigits 16 n
  "0x" ++ String.mk (List.replicate (2 - ds.length) '0' ++ ds)

/-- Outcome of one attempt to start and wait for an external command, the
three cases subprocess.check_output can produce here: normal termination
with captured output, termination with a non-zero exit status (raised as
subprocess.CalledProcessError), or the executable not being found (raised
as FileNotFoundError, which is an OSError and not a CalledProcessError). -/
inductive CmdResult where
  | success (out : String)
  | calledProcessError (code : Int)
  | fileNotFound
deriving DecidableEq

/-- Observable step of the dispatch loop: one external key-injection
invocation, one sleep (in milliseconds), or one debug print (the debug
events carry the data shown; the console formatting is presentation). -/
inductive Event where
  | sendKey (argv : List String)
  | sleep (ms : Nat)
  | debugSend (c : Char) (seq : List String)
  | debugSkip (c : Char)
  | debugPause
deriving DecidableEq

/-- Record of one subprocess.run call: its argument vector and the fixed
keyword options used at the call site (stdout and stderr redirected to
DEVNULL, check flag). -/
structure Invocation where
  argv : List String
  stdout_discarded : Bool
  stderr_discarded : Bool
  check : Bool
deriving DecidableEq

/-- Model of subprocess.run inv.argv with the given exit code of the child:
it raises CalledProcessError only when the check flag is set and the exit
status is non-zero; otherwise the exit status is ignored. -/
def subprocess_run (inv : Invocation) (exitCode : Int) : Except String Unit :=
  if inv.check && exitCode != 0 then Except.error "CalledProcessError" else Except.ok ()

namespace sendkeys

/-- Embedding of run_command from sendkeys.py: the output of a successful
command is stripped and returned; a CalledProcessError (non-zero exit)
is caught and turned into the empty string; a FileNotFoundError is not
matched by the except clause and propagates. -/
def run_command (r : CmdResult) : Except String String :=
  match r with
  | CmdResult.success out => Except.ok (pyStrip out)
  | CmdResult.calledProcessError _ => Except.ok ""
  | CmdResult.fileNotFound => Except.error "FileNotFoundError"

/-- Embedding of the list comprehension in get_domains:
[line.split()[1] for line in lines if len(line.split()) > 1]. The guard is
evaluated first; the indexing is modelled with get? so that an
out-of-range index would surface as none (Python would raise IndexError). -/
def extractDomains : List String → Option (List String)
  | [] => some []
  | line :: rest =>
    if 1 < (pySplit line).length then
      match (pySplit line).get? 1, extractDomains rest with
      | some d, some ds => some (d :: ds)
      | _, _ => none
    else extractDomains rest

/-- Embedding of get_domains from sendkeys.py: run the listing command,
split its output into lines, skip the first two, and extract the second
whitespace-separated token of each remaining line that has one. -/
def get_domains (r : CmdResult) : Except String (List String) :=
  match run_command r with
  | Except.error e => Except.error e
  | Except.ok output =>
    match extractDomains ((pySplitlines output).drop 2) with
    | some ds => Except.ok ds
    | none => Except.error "IndexError"

/-- Embedding of base_symbols from sendkeys.py _build_key_map. -/
def base_symbols : List (Char × String) :=
  [('-', "0x2d"), ('=', "0x2e"), ('[', "0x2f"), (']', "0x30"), ('\\', "0x64"),
   (';', "0x33"), ('\'', "0x34"), (',', "0x36"), ('.', "0x37"), ('/', "0x38"), ('`', "0x35")]

/-- Embedding of shift_pairs from sendkeys.py _build_key_map. -/
def shift_pairs : List (Char × Char) :=
  [('-', '_'), ('=', '+'), ('[', '\x7b'), (']', '\x7d'), ('\\', '|'),
   (';', ':'), ('\'', '\"'), (',', '<'), ('.', '>'), ('/', '?'), ('`', '~')]

/-- Embedding of key_map_str inside sendkeys.py _build_key_map: the merged
dictionary as an association list in construction order (Python dict merge
lets a later entry override an earlier one; lookup below respects that). -/
def key_map_str : List (Char × String) :=
  ((List.range' 97 26).map (fun c => (Char.ofNat c, pyHex02 (c - 93))))
  ++ ((List.range' 65 26).map (fun c => (Char.ofNat c, "0xe1 " ++ pyHex02 (c - 61))))
  ++ ((List.range' 1 9).map (fun i => (Char.ofNat (48 + i), pyHex02 (0x1d + i))))
  ++ [('0', "0x27")]
  ++ (("!@#$%^&*()".toList.zip (List.range' 1 10)).map
        (fun p => (p.1, "0xe1 " ++ pyHex02 (0x1d + p.2))))
  ++ base_symbols
  ++ (base_symbols.filterMap (fun p =>
        match shift_pairs.lookup p.1 with
        | some shifted => some (shifted, "0xe1 " ++ p.2)
        | none => none))
  ++ [(' ', "0x2c"), ('\n', "0x28"), ('\t', "0x2b")]

/-- Embedding of KEY_MAP = _build_key_map() from sendkeys.py: every value
string of key_map_str pre-split into a token list. -/
def KEY_MAP : List (Char × List String) :=
  key_map_str.map (fun p => (p.1, pySplit p.2))

/-- Model of the Python expression KEY_MAP.get(char): dictionary lookup,
with the later of two identically-keyed entries winning, hence the lookup
over the reversed association list. -/
def KEY_MAP_get (c : Char) : Option (List String) :=
  KEY_MAP.reverse.lookup c

/-- Embedding of send_keys from sendkeys.py: the printed debug_info is kept
as a parameter (its print is modelled as a debug event in the loop below);
the command vector and the fixed subprocess.run options are recorded. -/
def send_keys (domain : String) (char : Char) (holdtime_str : String)
    (key_sequence : List String) (debug_info : Option String) : Invocation :=
  { argv := ["sudo", "virsh", "send-key", domain, "--codeset", "usb"]
      ++ key_sequence ++ ["--holdtime", holdtime_str],
    stdout_discarded := true, stderr_discarded := true, check := false }

/-- Event trace of one iteration of the character loop in main
(sendkeys.py lines 132-153): look the character up, skip it when unmapped
or mapped to an empty list (the Python truthiness test), otherwise send the
key and, after a space, sleep for the configured pause. -/
def dispatchChar (domain holdtime_str : String) (pause_time_ms : Nat) (debug : Bool)
    (c : Char) : List Event :=
  match KEY_MAP_get c with
  | some (t :: ts) =>
    (if debug then [Event.debugSend c (t :: ts)] else [])
      ++ Event.sendKey (send_keys domain c holdtime_str (t :: ts) none).argv
      :: (if c = ' ' then (if debug then [Event.debugPause] else [])
            ++ [Event.sleep pause_time_ms] else [])
  | _ => if debug then [Event.debugSkip c] else []

/-- Event trace of the whole character loop of main over one input line. -/
def dispatchLine (domain holdtime_str : String) (pause_time_ms : Nat) (debug : Bool) :
    List Char → List Event
  | [] => []
  | c :: cs =>
    dispatchChar domain holdtime_str pause_time_ms debug c
      ++ dispatchLine domain holdtime_str pause_time_ms debug cs

/-- Embedding of the character loop of main with the child processes' exit
statuses made explicit: exits i is the exit status of the i-th external
invocation, and each subprocess.run is threaded through Except so that a
raised error would abort the loop. subprocess.run is called with the check
flag cleared, so no exit status can in fact raise. -/
def processChars (domain holdtime_str : String) (pause_time_ms : Nat) (debug : Bool)
    (exits : Nat → Int) : Nat → List Char → Except String (List Event)
  | _, [] => Except.ok []
  | i, c :: cs =>
    match KEY_MAP_get c with
    | some (t :: ts) =>
      match subprocess_run (send_keys domain c holdtime_str (t :: ts) none) (exits i) with
      | Except.error e => Except.error e
      | Except.ok _ =>
        match processChars domain holdtime_str pause_time_ms debug exits (i + 1) cs with
        | Except.error e => Except.error e
        | Except.ok evs =>
          Except.ok ((if debug then [Event.debugSend c (t :: ts)] else [])
            ++ Event.sendKey (send_keys domain c holdtime_str (t :: ts) none).argv
            :: (if c = ' ' then (if debug then [Event.debugPause] else [])
                  ++ [Event.sleep pause_time_ms] else [])
            ++ evs)
    | _ =>
      match processChars domain holdtime_str pause_time_ms debug exits i cs with
      | Except.error e => Except.error e
      | Except.ok evs => Except.ok ((if debug then [Event.debugSkip c] else []) ++ evs)

end sendkeys

namespace sendkeys_gui

/-- Embedding of run_command from sendkeys_gui.py (same text as the CLI one). -/
def run_command (r : CmdResult) : Except String String :=
  match r with
  | CmdResult.success out => Except.ok (pyStrip out)
  | CmdResult.calledProcessError _ => Except.ok ""
  | CmdResult.fileNotFound => Except.error "FileNotFoundError"

/-- Embedding of base_symbols from sendkeys_gui.py _build_key_map. -/
def base_symbols : List (Char × String) :=
  [('-', "0x2d"), ('=', "0x2e"), ('[', "0x2f"), (']', "0x30"), ('\\', "0x64"),
   (';', "0x33"), ('\'', "0x34"), (',', "0x36"), ('.', "0x37"), ('/', "0x38"), ('`', "0x35")]

/-- Embedding of shift_pairs from sendkeys_gui.py _build_key_map. -/
def shift_pairs : List (Char × Char) :=
  [('-', '_'), ('=', '+'), ('[', '\x7b'), (']', '\x7d'), ('\\', '|'),
   (';', ':'), ('\'', '\"'), (',', '<'), ('.', '>'), ('/', '?'), ('`', '~')]

/-- Embedding of key_map_str inside sendkeys_gui.py _build_key_map. -/
def key_map_str : List (Char × String) :=
  ((List.range' 97 26).map (fun c => (Char.ofNat c, pyHex02 (c - 93))))
  ++ ((List.range' 65 26).map (fun c => (Char.ofNat c, "0xe1 " ++ pyHex02 (c - 61))))
  ++ ((List.range' 1 9).map (fun i => (Char.ofNat (48 + i), pyHex02 (0x1d + i))))
  ++ [('0', "0x27")]
  ++ (("!@#$%^&*()".toList.zip (List.range' 1 10)).map
        (fun p => (p.1, "0xe1 " ++ pyHex02 (0x1d + p.2))))
  ++ base_symbols
  ++ (base_symbols.filterMap (fun p =>
        match shift_pairs.lookup p.1 with
        | some shifted => some (shifted, "0xe1 " ++ p.2)
        | none => none))
  ++ [(' ', "0x2c"), ('\n', "0x28"), ('\t', "0x2b")]

/-- Embedding of KEY_MAP = _build_key_map() from sendkeys_gui.py. -/
def KEY_MAP : List (Char × List String) :=
  key_map_str.map (fun p => (p.1, pySplit p.2))

/-- Model of the Python expression KEY_MAP.get(char) in sendkeys_gui.py. -/
def KEY_MAP_get (c : Char) : Option (List String) :=
  KEY_MAP.reverse.lookup c

/-- Embedding of send_keys from sendkeys_gui.py. -/
def send_keys (domain : String) (key_sequence : List String) (holdtime_str : String) :
    Invocation :=
  { argv := ["sudo", "virsh", "send-key", domain, "--codeset", "usb"]
      ++ key_sequence ++ ["--holdtime", holdtime_str],
    stdout_discarded := true, stderr_discarded := true, check := false }

/-- Event trace of one iteration of the loop body of KeySenderThread.run
(sendkeys_gui.py lines 101-116), after the running-flag check passed. -/
def dispatchChar (domain holdtime_str : String) (pause_time_ms : Nat) (debug : Bool)
    (c : Char) : List Event :=
  match KEY_MAP_get c with
  | some (t :: ts) =>
    (if debug then [Event.debugSend c (t :: ts)] else [])
      ++ Event.sendKey (send_keys domain (t :: ts) holdtime_str).argv
      :: (if c = ' ' then (if debug then [Event.debugPause] else [])
            ++ [Event.sleep pause_time_ms] else [])
  | _ => if debug then [Event.debugSkip c] else []

/-- Embedding of the character loop of KeySenderThread.run: flags i is the
value of the cooperative _is_running flag observed by the check at the top
of iteration i; a cleared flag breaks out of the loop before the character
is looked up or sent. The sleep after a space belongs to the same
iteration as its send, so a pause already underway is never cut short. -/
def KeySenderThread_run (domain holdtime_str : String) (pause_time_ms : Nat)
    (debug : Bool) (flags : Nat → Bool) : Nat → List Char → List Event
  | _, [] => []
  | i, c :: cs =>
    if flags i then
      dispatchChar domain holdtime_str pause_time_ms debug c
        ++ KeySenderThread_run domain holdtime_str pause_time_ms debug flags (i + 1) cs
    else []

end sendkeys_gui

/-!
Character sets of the documented contract, written out from the spec's
enumeration of the supported characters, and helper lemmas.
-/

/-- Every character the spec lists as supported by the Scancode Table. -/
def supportedChars : List Char :=
  ("abcdefghijklmnopqrstuvwxyzABCDEFGHIJKLMNOPQRSTUVWXYZ0123456789 \t\n"
    ++ "-=[]\\;',./`" ++ "!@#$%^&*()_+\x7b\x7d|:\"<>?~").toList

/-- Uppercase letters and shifted symbols: the characters the spec says map
to a two-token sequence led by the shift modifier. -/
def shiftedChars : List Char :=
  ("ABCDEFGHIJKLMNOPQRSTUVWXYZ" ++ "!@#$%^&*()_+\x7b\x7d|:\"<>?~").toList

/-- Lowercase letters, digits, unshifted punctuation, space, tab, newline:
the characters the spec says map to a single-token sequence. -/
def singleTokenChars : List Char :=
  ("abcdefghijklmnopqrstuvwxyz0123456789" ++ "-=[]\\;',./`" ++ " \t\n").toList

/-- Parse shape stated by the spec for the Domain Enumerator: the second
whitespace-separated token of every line that has at least two, lines with
fewer contributing nothing. -/
def secondColumn (lines : List String) : List String :=
  lines.filterMap (fun line =>
    match pySplit line with
    | _ :: second :: _ => some second
    | _ => none)

/-- Lookup in an association list misses every key the list does not hold. -/
theorem lookup_eq_none_of_notMem {α : Type} (m : List (Char × α)) (c : Char)
    (h : ∀ p ∈ m, p.1 ≠ c) : m.lookup c = none := by
  induction m with
  | nil => rfl
  | cons p m ih =>
    have hne : (c == p.1) = false := by
      exact beq_eq_false_iff_ne.mpr (Ne.symm (h p (List.mem_cons_self p m)))
    simp only [List.lookup, hne]
    exact ih (fun q hq => h q (List.mem_cons_of_mem p hq))

/-- Every key of the CLI key map is one of the spec's supported characters. -/
theorem key_map_keys_supported :
    ∀ p ∈ sendkeys.KEY_MAP.reverse, p.1 ∈ supportedChars := by decide

/-- Embedding of the comprehension agrees with the parse shape stated by
the spec, and in particular it never fails. -/
theorem extractDomains_eq (ls : List String) :
    sendkeys.extractDomains ls = some (secondColumn ls) := by
  induction ls with
  | nil => rfl
  | cons line rest ih =>
    simp only [sendkeys.extractDomains, secondColumn, List.filterMap_cons]
    cases h : pySplit line with
    | nil => simpa [h] using ih
    | cons a ts =>
      cases ts with
      | nil => simpa [h] using ih
      | cons b rest2 =>
        simp only [h, List.length_cons]
        have hlt : 1 < rest2.length + 1 + 1 := by omega
        simp only [if_pos hlt, List.get?]
        rw [ih]
        simp [secondColumn]

/-- Lines that lack a second token contribute no domain at all. -/
theorem secondColumn_eq_nil (ls : List String)
    (h : ∀ line ∈ ls, (pySplit line).length ≤ 1) : secondColumn ls = [] := by
  induction ls with
  | nil => rfl
  | cons line rest ih =>
    have hline := h line (List.mem_cons_self line rest)
    simp only [secondColumn, List.filterMap_cons]
    cases hp : pySplit line with
    | nil => exact ih (fun l hl => h l (List.mem_cons_of_mem line hl))
    | cons a ts =>
      cases ts with
      | nil => exact ih (fun l hl => h l (List.mem_cons_of_mem line hl))
      | cons b rest2 => simp [hp] at hline

/-- The exit-status oracle is ignored: the character loop of main never
aborts and its event trace is the plain per-character trace. -/
theorem processChars_ok (d h : String) (p : Nat) (dbg : Bool) (exits : Nat → Int) :
    ∀ (i : Nat) (text : List Char),
      sendkeys.processChars d h p dbg exits i text =
        Except.ok (sendkeys.dispatchLine d h p dbg text) := by
  intro i text
  induction text generalizing i with
  | nil => rfl
  | cons c cs ih =>
    simp only [sendkeys.processChars, sendkeys.dispatchLine, sendkeys.dispatchChar]
    cases hk : sendkeys.KEY_MAP_get c with
    | none => simp [ih i]
    | some seq =>
      cases seq with
      | nil => simp [ih i]
      | cons t ts =>
        simp only [subprocess_run, sendkeys.send_keys, Bool.false_and, if_neg, ih (i + 1)]
        simp

/-- Traces of the character loop concatenate over concatenated input. -/
theorem dispatchLine_append (d h : String) (p : Nat) (dbg : Bool) (xs ys : List Char) :
    sendkeys.dispatchLine d h p dbg (xs ++ ys) =
      sendkeys.dispatchLine d h p dbg xs ++ sendkeys.dispatchLine d h p dbg ys := by
  induction xs with
  | nil => rfl
  | cons c cs ih => simp [sendkeys.dispatchLine, ih, List.append_assoc]

/-- Generalised cancellation lemma for the GUI worker loop: once the
running flag reads false from iteration boundary k onward, the loop run
from boundary i sends exactly what it would send on the input truncated
to the first k - i characters. -/
theorem KeySenderThread_run_take (d h : String) (p : Nat) (dbg : Bool)
    (flags : Nat → Bool) (k : Nat) (hk : ∀ j, k ≤ j → flags j = false) :
    ∀ (text : List Char) (i : Nat),
      sendkeys_gui.KeySenderThread_run d h p dbg flags i text =
        sendkeys_gui.KeySenderThread_run d h p dbg flags i (text.take (k - i)) := by
  intro text
  induction text with
  | nil => intro i; simp [List.take_nil]
  | cons c cs ih =>
    intro i
    by_cases hf : flags i = true
    · have hik : i < k := by
        by_contra hik
        exact absurd hf (by simp [hk i (Nat.le_of_not_lt hik)])
      obtain ⟨m, hm⟩ : ∃ m, k - i = m + 1 := ⟨k - i - 1, by omega⟩
      rw [hm]
      simp only [List.take_succ_cons, sendkeys_gui.KeySenderThread_run, hf, if_pos]
      rw [ih (i + 1)]
      have : k - (i + 1) = m := by omega
      rw [this]
    · have hf' : flags i = false := by simpa using hf
      cases hki : k - i with
      | zero => simp [sendkeys_gui.KeySenderThread_run, hf']
      | succ m => simp [sendkeys_gui.KeySenderThread_run, hf']

/-- C1: in the Scancode Table built by _build_key_map, every uppercase
letter and every shifted symbol maps to a sequence of exactly two tokens
whose first token is the fixed shift modifier 0xe1, and every lowercase
letter, digit, unshifted punctuation symbol, space, tab and newline maps
to a sequence of exactly one token. -/
theorem claim_C1_shift_and_token_lengths :
    (shiftedChars.all (fun c =>
      match sendkeys.KEY_MAP_get c with
      | some [t, _] => t == "0xe1"
      | _ => false)) = true
    ∧ (singleTokenChars.all (fun c =>
      match sendkeys.KEY_MAP_get c with
      | some [_] => true
      | _ => false)) = true := by
  constructor
  · decide
  · decide

/-- C2: every character of the supported set is present in KEY_MAP and its
looked-up token sequence is non-empty. -/
theorem claim_C2_supported_lookup_nonempty :
    (supportedChars.all (fun c =>
      match sendkeys.KEY_MAP_get c with
      | some (_ :: _) => true
      | _ => false)) = true := by decide

/-- C3: a character outside the supported set misses KEY_MAP, the dispatch
loop performs no external invocation for it and raises no error, and
processing continues with the next character, at most emitting a debug
trace. -/
theorem claim_C3_unsupported_skipped :
    ∀ c : Char, c ∉ supportedChars →
      sendkeys.KEY_MAP_get c = none
      ∧ (∀ (d h : String) (p : Nat) (dbg : Bool),
          sendkeys.dispatchChar d h p dbg c = if dbg then [Event.debugSkip c] else [])
      ∧ (∀ (d h : String) (p : Nat) (dbg : Bool) (exits : Nat → Int) (i : Nat)
            (cs : List Char),
          sendkeys.processChars d h p dbg exits i (c :: cs)
            = (sendkeys.processChars d h p dbg exits i cs).map
                (fun evs => (if dbg then [Event.debugSkip c] else []) ++ evs)) := by
  intro c hc
  have hnone : sendkeys.KEY_MAP_get c = none := by
    apply lookup_eq_none_of_notMem
    intro p hp heq
    exact hc (heq ▸ key_map_keys_supported p hp)
  refine ⟨hnone, ?_, ?_⟩
  · intro d h p dbg
    simp [sendkeys.dispatchChar, hnone]
  · intro d h p dbg exits i cs
    simp only [sendkeys.processChars]
    rw [hnone]
    cases hres : sendkeys.processChars d h p dbg exits i cs with
    | error e => simp [Except.map]
    | ok evs => simp [Except.map]

/-- Witness for C3 at the unsupported non-ASCII character é. -/
theorem claim_C3_witness :
    sendkeys.KEY_MAP_get 'é' = none
    ∧ sendkeys.dispatchChar "vm" "100" 300 false 'é' = [] :=
  ⟨(claim_C3_unsupported_skipped 'é' (by decide)).1,
   by simpa using (claim_C3_unsupported_skipped 'é' (by decide)).2.1 "vm" "100" 300 false⟩

/-- C4 as stated is false: get_domains does catch a non-zero exit of the
listing command, but a command-not-found error is no CalledProcessError,
escapes the except clause of run_command and propagates to the caller. -/
theorem claim_C4_counterexample :
    sendkeys.get_domains CmdResult.fileNotFound = Except.error "FileNotFoundError"
    ∧ sendkeys.get_domains CmdResult.fileNotFound ≠ Except.ok [] := by
  refine ⟨rfl, fun hcontra => ?_⟩
  rw [show sendkeys.get_domains CmdResult.fileNotFound
      = Except.error "FileNotFoundError" from rfl] at hcontra
  exact Except.noConfusion hcontra

/-- C4 amended: on a non-zero exit status of the listing command,
get_domains returns the empty list without raising; only a
command-not-found error propagates to the caller. -/
theorem claim_C4_amended_failure_handling :
    (∀ code : Int,
      sendkeys.get_domains (CmdResult.calledProcessError code) = Except.ok [])
    ∧ sendkeys.get_domains CmdResult.fileNotFound = Except.error "FileNotFoundError" :=
  ⟨fun _ => rfl, rfl⟩

/-- C5: the key-injection command is exactly the fixed sudo virsh send-key
head, the target domain, the fixed usb codeset behind the codeset flag,
the ordered token sequence, and the decimal millisecond hold time behind
the holdtime flag; both output streams are discarded, the check flag is
cleared so no exit status raises, and the dispatch loop's trace is the
same whatever exit statuses the invocations produce. -/
theorem claim_C5_invocation_shape :
    ∀ (domain : String) (holdtime : Nat) (c : Char) (key_sequence : List String)
      (debug_info : Option String),
      (sendkeys.send_keys domain c (toString holdtime) key_sequence debug_info).argv
          = ["sudo", "virsh", "send-key", domain, "--codeset", "usb"]
              ++ key_sequence ++ ["--holdtime", toString holdtime]
      ∧ (sendkeys.send_keys domain c (toString holdtime) key_sequence
            debug_info).stdout_discarded = true
      ∧ (sendkeys.send_keys domain c (toString holdtime) key_sequence
            debug_info).stderr_discarded = true
      ∧ (sendkeys.send_keys domain c (toString holdtime) key_sequence
            debug_info).check = false
      ∧ (∀ exitCode : Int,
          subprocess_run
            (sendkeys.send_keys domain c (toString holdtime) key_sequence debug_info)
            exitCode = Except.ok ())
      ∧ (∀ (p : Nat) (dbg : Bool) (exits : Nat → Int) (i : Nat) (text : List Char),
          sendkeys.processChars domain (toString holdtime) p dbg exits i text
            = Except.ok (sendkeys.dispatchLine domain (toString holdtime) p dbg text)) := by
  intro domain holdtime c ks di
  refine ⟨rfl, rfl, rfl, rfl, fun e => rfl, fun p dbg exits i text => processChars_ok _ _ _ _ _ _ _⟩

/-- C6: get_domains drops the first two lines of the (stripped) listing
output and takes the second whitespace-separated token of each remaining
line, lines with fewer than two tokens contributing nothing; output of
fewer than three lines therefore yields the empty domain list. -/
theorem claim_C6_parse_shape_and_short_output :
    ∀ output : String,
      sendkeys.get_domains (CmdResult.success output)
          = Except.ok (secondColumn ((pySplitlines (pyStrip output)).drop 2))
      ∧ ((pySplitlines (pyStrip output)).length < 3 →
          sendkeys.get_domains (CmdResult.success output) = Except.ok []) := by
  intro output
  have h1 : sendkeys.get_domains (CmdResult.success output)
      = Except.ok (secondColumn ((pySplitlines (pyStrip output)).drop 2)) := by
    simp only [sendkeys.get_domains, sendkeys.run_command]
    rw [extractDomains_eq]
  refine ⟨h1, fun hlen => ?_⟩
  have hdrop : (pySplitlines (pyStrip output)).drop 2 = [] :=
    List.drop_eq_nil_of_le (by omega)
  rw [h1, hdrop]
  rfl

/-- Witness for C6 on a header-only two-line output. -/
theorem claim_C6_witness :
    sendkeys.get_domains (CmdResult.success " Id   Name   State\n--------------------")
      = Except.ok [] :=
  (claim_C6_parse_shape_and_short_output " Id   Name   State\n--------------------").2
    (by decide)

/-- C7: the line Hi there with hold time 100 and pause 300 dispatches the
eight characters in input order, the only sleep follows the space send,
the capital H carries the shift token 0xe1 and the lowercase letters do
not; and in general the trace of a concatenation is the concatenation of
the traces, so characters are never reordered or batched. -/
theorem claim_C7_hi_there_scenario :
    sendkeys.dispatchLine "vm" (toString 100) 300 false ("Hi there".toList)
        = [Event.sendKey ["sudo", "virsh", "send-key", "vm", "--codeset", "usb",
              "0xe1", "0x0b", "--holdtime", "100"],
           Event.sendKey ["sudo", "virsh", "send-key", "vm", "--codeset", "usb",
              "0x0c", "--holdtime", "100"],
           Event.sendKey ["sudo", "virsh", "send-key", "vm", "--codeset", "usb",
              "0x2c", "--holdtime", "100"],
           Event.sleep 300,
           Event.sendKey ["sudo", "virsh", "send-key", "vm", "--codeset", "usb",
              "0x17", "--holdtime", "100"],
           Event.sendKey ["sudo", "virsh", "send-key", "vm", "--codeset", "usb",
              "0x0b", "--holdtime", "100"],
           Event.sendKey ["sudo", "virsh", "send-key", "vm", "--codeset", "usb",
              "0x08", "--holdtime", "100"],
           Event.sendKey ["sudo", "virsh", "send-key", "vm", "--codeset", "usb",
              "0x15", "--holdtime", "100"],
           Event.sendKey ["sudo", "virsh", "send-key", "vm", "--codeset", "usb",
              "0x08", "--holdtime", "100"]]
    ∧ ∀ (d h : String) (p : Nat) (dbg : Bool) (xs ys : List Char),
        sendkeys.dispatchLine d h p dbg (xs ++ ys)
          = sendkeys.dispatchLine d h p dbg xs ++ sendkeys.dispatchLine d h p dbg ys :=
  ⟨by decide, dispatchLine_append⟩

/-- C8: the GUI worker checks the running flag before each character; if
the flag reads false from iteration boundary k onward, the loop sends
exactly the events of the first k characters and nothing at or after that
boundary; the sleep after a space is emitted within the same iteration as
its send, so a pause in progress is not itself interrupted. -/
theorem claim_C8_cancellation :
    (∀ (d h : String) (p : Nat) (dbg : Bool) (flags : Nat → Bool) (k : Nat)
        (text : List Char),
      (∀ j, k ≤ j → flags j = false) →
      sendkeys_gui.KeySenderThread_run d h p dbg flags 0 text
        = sendkeys_gui.KeySenderThread_run d h p dbg flags 0 (text.take k))
    ∧ (∀ (d h : String) (p : Nat),
        sendkeys_gui.dispatchChar d h p false ' '
          = [Event.sendKey (sendkeys_gui.send_keys d ["0x2c"] h).argv,
             Event.sleep p]) := by
  constructor
  · intro d h p dbg flags k text hk
    simpa using KeySenderThread_run_take d h p dbg flags k hk text 0
  · intro d h p
    simp [sendkeys_gui.dispatchChar,
      show sendkeys_gui.KEY_MAP_get ' ' = some ["0x2c"] from rfl]

/-- Witness for C8: with a flag that reads false from boundary 2 onward,
the worker sends only the first two characters of abc. -/
theorem claim_C8_witness :
    sendkeys_gui.KeySenderThread_run "vm" "100" 300 false
        (fun j => decide (j < 2)) 0 ("abc".toList)
      = sendkeys_gui.KeySenderThread_run "vm" "100" 300 false
        (fun j => decide (j < 2)) 0 (("abc".toList).take 2) :=
  claim_C8_cancellation.1 "vm" "100" 300 false (fun j => decide (j < 2)) 2
    ("abc".toList) (fun j hj => by simp only [decide_eq_false_iff_not]; omega)

/-- C9 as stated is false: the parser reads shape only, so a
non-conforming output that still carries a line with a second
whitespace-separated token after the two skipped header lines yields that
token as a bogus domain name, not the empty list. -/
theorem claim_C9_counterexample :
    sendkeys.get_domains (CmdResult.success "a\nb\nfoo bar") = Except.ok ["bar"]
    ∧ sendkeys.get_domains (CmdResult.success "a\nb\nfoo bar") ≠ Except.ok [] := by
  refine ⟨rfl, fun hcontra => ?_⟩
  rw [show sendkeys.get_domains (CmdResult.success "a\nb\nfoo bar")
      = Except.ok ["bar"] from rfl] at hcontra
  simp at hcontra

/-- C9 amended: whatever the listing command printed, get_domains neither
raises nor fails, and when no line after the two skipped header lines
carries a second whitespace-separated token the parsed domain list is
empty; a non-conforming output whose lines do carry second tokens yields
those tokens instead of zero domains. -/
theorem claim_C9_nonconforming_output_safe :
    ∀ output : String,
      (∃ ds, sendkeys.get_domains (CmdResult.success output) = Except.ok ds)
      ∧ ((∀ line ∈ (pySplitlines (pyStrip output)).drop 2,
            (pySplit line).length ≤ 1) →
          sendkeys.get_domains (CmdResult.success output) = Except.ok []) := by
  intro output
  have h1 : sendkeys.get_domains (CmdResult.success output)
      = Except.ok (secondColumn ((pySplitlines (pyStrip output)).drop 2)) := by
    simp only [sendkeys.get_domains, sendkeys.run_command]
    rw [extractDomains_eq]
  exact ⟨⟨_, h1⟩, fun hshort => by rw [h1, secondColumn_eq_nil _ hshort]⟩

/-- Witness for C9 on a three-line error message none of whose rows has a
second column after the header skip. -/
theorem claim_C9_witness :
    (∃ ds, sendkeys.get_domains
        (CmdResult.success "error: failed to connect\nto the hypervisor\ngarbage")
      = Except.ok ds)
    ∧ sendkeys.get_domains
        (CmdResult.success "error: failed to connect\nto the hypervisor\ngarbage")
      = Except.ok [] :=
  ⟨(claim_C9_nonconforming_output_safe
      "error: failed to connect\nto the hypervisor\ngarbage").1,
   (claim_C9_nonconforming_output_safe
      "error: failed to connect\nto the hypervisor\ngarbage").2 (by decide)⟩

/-- C10: the key map of the CLI module and the key map of the GUI module
agree on every character: both miss it or both return the identical token
list. -/
theorem claim_C10_key_maps_agree :
    ∀ c : Char, sendkeys.KEY_MAP_get c = sendkeys_gui.KEY_MAP_get c :=
  fun _ => rfl
